import Mathlib

/-!
Verification model of the OpenClaw Telegram plugin's agent lifecycle and
behavior orchestration core (plugins/telegram/src).  Pure functions are
translated directly; stateful TypeScript code is modelled by explicit state
passing over a `Storage` record (the SQLite-backed `TelegramStorage`), the
per-agent in-memory record, and the process-wide runtime maps (cooldowns,
conversation histories).  External I/O (transport connect/send, the
completion provider, clocks, UUIDs) is supplied through explicit oracle
parameters.
-/

namespace OpenClaw

/-- JavaScript `String.prototype.toLowerCase`, restricted to the
character-wise lowering Lean offers. -/
def lowerStr (s : String) : String :=
  ⟨s.data.map Char.toLower⟩

/-- Substring test on character lists: JS `hay.includes(needle)`. -/
def includesList : List Char → List Char → Bool
  | hay, needle =>
    if needle.isPrefixOf hay then true
    else
      match hay with
      | [] => false
      | _ :: t => includesList t needle

/-- JS `hay.includes(needle)` on strings. -/
def strIncludes (hay needle : String) : Bool :=
  includesList hay.data needle.data

/-- JS `s.slice(0, n)` (character-list based). -/
def strTake (s : String) (n : Nat) : String :=
  ⟨s.data.take n⟩

/-- `JS Map.get` on an association list (insertion ordered, like JS Map). -/
def alistGet {α : Type} (m : List (String × α)) (k : String) : Option α :=
  match m.find? (fun p => p.1 = k) with
  | some p => some p.2
  | none => none

/-- `JS Map.set`: update in place if the key exists, else append. -/
def alistSet {α : Type} (m : List (String × α)) (k : String) (v : α) :
    List (String × α) :=
  if m.any (fun p => p.1 = k) then
    m.map (fun p => if p.1 = k then (k, v) else p)
  else m ++ [(k, v)]

-- ── Data model (plugins/telegram/src/types.ts) ──────────────────────────────

/-- `AgentStatus` from types.ts. -/
inductive AgentStatus
  | stopped
  | starting
  | running
  | error
deriving DecidableEq, Repr

/-- The `stats` object of an `AgentRecord`. -/
structure Stats where
  sent : Nat
  received : Nat
  parsed : Nat
deriving DecidableEq, Repr

/-- Credentials as they exist at runtime: a JSON object carrying a `type`
tag plus the optional variant fields.  `AgentManager.create` never
validates the tag, so the model keeps the dynamic shape. -/
structure AgentCredentials where
  ctype : String
  token : Option String := none
  phoneNumber : Option String := none
  sessionString : Option String := none
deriving DecidableEq, Repr

/-- One `templates` entry of an auto-reply behavior. -/
structure Template where
  trigger : String
  response : String
deriving DecidableEq, Repr

/-- `AutoReplyBehavior` payload from types.ts. -/
structure AutoReplyCfg where
  enabled : Bool
  replyMode : String
  aiSystemPrompt : Option String := none
  triggerKeywords : Option (List String) := none
  templates : Option (List Template) := none
  onlyInChats : Option (List String) := none
  cooldownSeconds : Option Nat := none
deriving DecidableEq, Repr

/-- `MonitorBehavior` payload from types.ts. -/
structure MonitorCfg where
  enabled : Bool
  targets : List String
  filterKeywords : Option (List String) := none
  webhookUrl : Option String := none
  saveToDb : Bool := false
deriving DecidableEq, Repr

/-- `BroadcastBehavior` payload from types.ts. -/
structure BroadcastCfg where
  enabled : Bool
  targets : List String
  message : String
  schedule : Option String := none
  parseMode : Option String := none
  delayBetweenMs : Option Nat := none
  onlyOnce : Bool := false
deriving DecidableEq, Repr

/-- `ParserBehavior` payload from types.ts. -/
structure ParserCfg where
  enabled : Bool
  targets : List String
  parseMessages : Bool := false
  parseMembers : Bool := false
  limit : Option Nat := none
  webhookUrl : Option String := none
  saveToDb : Bool := false
deriving DecidableEq, Repr

/-- `BehaviorConfig` tagged union from types.ts. -/
inductive BehaviorConfig
  | auto_reply (c : AutoReplyCfg)
  | monitor (c : MonitorCfg)
  | broadcast (c : BroadcastCfg)
  | parser (c : ParserCfg)
deriving DecidableEq, Repr

/-- `AgentRecord` from types.ts.  Timestamps are abstracted to `Nat`
milliseconds (the ISO strings are injective images of the clock). -/
structure AgentRecord where
  id : String
  name : String
  rtype : String
  status : AgentStatus
  credentials : AgentCredentials
  behaviors : List BehaviorConfig
  createdAt : Nat
  updatedAt : Nat
  lastError : Option String := none
  stats : Stats
deriving DecidableEq, Repr

/-- Event type tags of `TelegramEvent`. -/
inductive EventType
  | message_in
  | message_out
  | parsed_item
  | status_change
  | error
deriving DecidableEq, Repr

/-- Payload shapes actually pushed by the agents. -/
inductive EventPayload
  | statusChange (status : AgentStatus) (err : Option String)
  | message (text : String) (chat : Option String)
  | broadcastOut (target : String)
  | parsedItem (source : String)
deriving DecidableEq, Repr

/-- `TelegramEvent` from types.ts. -/
structure TelegramEvent where
  agentId : String
  agentName : String
  etype : EventType
  payload : EventPayload
  timestamp : Nat
deriving DecidableEq, Repr

-- ── Storage (plugins/telegram/src/storage/TelegramStorage.ts) ───────────────

/-- State of the SQLite store.  `behaviorWrites` is a ghost log recording
each `updateBehaviors` SQL write (agent id and list written), used to
reason about how many times a behavior list was persisted. -/
structure Storage where
  agents : List AgentRecord
  events : List TelegramEvent
  behaviorWrites : List (String × List BehaviorConfig) := []
deriving DecidableEq, Repr

/-- `UPDATE tg_agents ... WHERE id=?`: rewrite the matching row, no-op when
the row is absent. -/
def Storage.updateAgentRow (s : Storage) (id : String)
    (f : AgentRecord → AgentRecord) : Storage :=
  { s with agents := s.agents.map (fun r => if r.id = id then f r else r) }

/-- `TelegramStorage.saveAgent` (INSERT OR REPLACE). -/
def Storage.saveAgent (s : Storage) (r : AgentRecord) : Storage :=
  if s.agents.any (fun x => x.id = r.id) then
    { s with agents := s.agents.map (fun x => if x.id = r.id then r else x) }
  else
    { s with agents := s.agents ++ [r] }

/-- `TelegramStorage.getAgent`. -/
def Storage.getAgent (s : Storage) (id : String) : Option AgentRecord :=
  s.agents.find? (fun r => r.id = id)

/-- `TelegramStorage.updateStatus`: sets status, last_error (overwritten
with NULL when absent) and updated_at. -/
def Storage.updateStatus (s : Storage) (id : String) (now : Nat)
    (st : AgentStatus) (err : Option String) : Storage :=
  s.updateAgentRow id
    (fun r => { r with status := st, lastError := err, updatedAt := now })

/-- `TelegramStorage.updateBehaviors`: sets behaviors and updated_at, and
appends to the ghost write log. -/
def Storage.updateBehaviors (s : Storage) (id : String) (now : Nat)
    (bs : List BehaviorConfig) : Storage :=
  let s1 := s.updateAgentRow id
    (fun r => { r with behaviors := bs, updatedAt := now })
  { s1 with behaviorWrites := s1.behaviorWrites ++ [(id, bs)] }

/-- `TelegramStorage.updateSession`: rewrites the credentials JSON with the
new sessionString; no-op when the row is absent. -/
def Storage.updateSession (s : Storage) (id : String) (now : Nat)
    (sessionString : String) : Storage :=
  s.updateAgentRow id
    (fun r =>
      { r with
        credentials := { r.credentials with sessionString := some sessionString },
        updatedAt := now })

/-- Stat column selector. -/
inductive StatField
  | sent
  | received
  | parsed
deriving DecidableEq, Repr

/-- `TelegramStorage.incrementStat`: `if (!row) return` — absent rows are a
no-op; otherwise bump the chosen counter. -/
def Storage.incrementStat (s : Storage) (id : String) (f : StatField) : Storage :=
  s.updateAgentRow id
    (fun r =>
      { r with
        stats :=
          match f with
          | .sent => { r.stats with sent := r.stats.sent + 1 }
          | .received => { r.stats with received := r.stats.received + 1 }
          | .parsed => { r.stats with parsed := r.stats.parsed + 1 } })

/-- `TelegramStorage.saveEvent` (INSERT). -/
def Storage.saveEvent (s : Storage) (e : TelegramEvent) : Storage :=
  { s with events := s.events ++ [e] }

-- ── Agent state and shared operations (BaseAgent.ts) ────────────────────────

/-- In-memory state of one agent object: its private copy of the record
(`this.record`) and whether the transport client (`this.bot` for the bot
variant, `this.client` for the userbot variant) is currently non-null. -/
structure AgentState where
  record : AgentRecord
  clientUp : Bool
deriving DecidableEq, Repr

/-- `BaseAgent.setStatus`: mutate the in-memory status, persist the
transition, push a `status_change` event. -/
def setStatusOp (a : AgentState) (s : Storage) (now : Nat)
    (st : AgentStatus) (err : Option String) : AgentState × Storage :=
  let a1 := { a with record := { a.record with status := st } }
  let s1 := s.updateStatus a.record.id now st err
  let s2 := s1.saveEvent
    { agentId := a.record.id, agentName := a.record.name,
      etype := .status_change, payload := .statusChange st err,
      timestamp := now }
  (a1, s2)

/-- Message direction tag of `BaseAgent.trackMessage`. -/
inductive Direction
  | msgIn
  | msgOut
deriving DecidableEq, Repr

/-- `BaseAgent.trackMessage`: bump the persisted sent/received counter (the
in-memory `record.stats` is NOT updated by the source) and push a
`message_in`/`message_out` event with the text truncated to 500 chars. -/
def trackMessageOp (a : AgentState) (s : Storage) (now : Nat)
    (d : Direction) (text : String) (chat : Option String) :
    AgentState × Storage :=
  let s1 := s.incrementStat a.record.id
    (match d with | .msgIn => .received | .msgOut => .sent)
  let s2 := s1.saveEvent
    { agentId := a.record.id, agentName := a.record.name,
      etype := (match d with | .msgIn => .message_in | .msgOut => .message_out),
      payload := .message (strTake text 500) chat,
      timestamp := now }
  (a, s2)

/-- `BaseAgent.updateBehaviors`: write the new list to the in-memory record
and to the store, then run the variant-specific `onBehaviorsChanged`
reconciliation.  The reconciliation performs no storage write before its
first suspension point, so its outcome is modelled as an oracle: `none`
for success, `some e` for a raised error (which propagates). -/
def updateBehaviorsOp (a : AgentState) (s : Storage) (now : Nat)
    (bs : List BehaviorConfig) (reconcileErr : Option String) :
    AgentState × Storage × Except String Unit :=
  let a1 := { a with record := { a.record with behaviors := bs } }
  let s1 := s.updateBehaviors a.record.id now bs
  match reconcileErr with
  | some e => (a1, s1, .error e)
  | none => (a1, s1, .ok ())

/-- `BaseAgent.getBehavior "auto_reply"`: first matching entry. -/
def getAutoReply (bs : List BehaviorConfig) : Option AutoReplyCfg :=
  bs.findSome? (fun b => match b with | .auto_reply c => some c | _ => none)

/-- `BaseAgent.getBehavior "broadcast"`: first matching entry. -/
def getBroadcast (bs : List BehaviorConfig) : Option BroadcastCfg :=
  bs.findSome? (fun b => match b with | .broadcast c => some c | _ => none)

/-- `BaseAgent.shouldAutoReply`.  JS truthiness: `onlyInChats?.length` is
nonzero length, `chatId` is a nonempty string. -/
def shouldAutoReply (cfg : AutoReplyCfg) (text : String) (chatId : String) :
    Bool :=
  if !cfg.enabled then false
  else if (cfg.onlyInChats.getD []).length > 0 && chatId ≠ ""
      && !((cfg.onlyInChats.getD []).contains chatId) then false
  else
    match cfg.triggerKeywords with
    | some ks =>
      if ks.length > 0 then
        ks.any (fun k => strIncludes (lowerStr text) (lowerStr k))
      else true
    | none => true

/-- Template lookup of the auto-reply handlers:
`templates?.find(t => text.toLowerCase().includes(t.trigger.toLowerCase()))`
with `tpl?.response ?? ""`. -/
def findTemplateReply (templates : Option (List Template)) (text : String) :
    String :=
  match (templates.getD []).find?
      (fun t => strIncludes (lowerStr text) (lowerStr t.trigger)) with
  | some t => t.response
  | none => ""

-- ── Conversation history (behaviors/AiReplyEngine.ts) ───────────────────────

/-- One entry of the `histories` map of AiReplyEngine. -/
structure ChatMsg where
  role : String
  content : String
deriving DecidableEq, Repr

/-- The process-wide `histories` map keyed by `agentId:chatId`. -/
def Histories := List (String × List ChatMsg)

/-- One `aiReply` call: look up the history, push the user message, trim to
the last 20 entries when longer, call the provider with the trimmed list
(its answer is the `reply` oracle), push the assistant reply, store.
Returns the updated map and the list actually sent to the provider. -/
def aiReplyStep (histories : List (String × List ChatMsg))
    (chatKey text reply : String) :
    (List (String × List ChatMsg)) × List ChatMsg :=
  let hist := (alistGet histories chatKey).getD []
  let hist1 := hist ++ [⟨"user", text⟩]
  let hist2 := if hist1.length > 20 then hist1.drop (hist1.length - 20) else hist1
  let hist3 := hist2 ++ [⟨"assistant", reply⟩]
  (alistSet histories chatKey hist3, hist2)

-- ── Inbound handlers ────────────────────────────────────────────────────────

/-- The process-wide `cooldowns` map of UserBotAgent.ts
(key `agentId:chatId` → last-reply time in ms). -/
def Cooldowns := List (String × Nat)

/-- Inbound message as seen by the userbot NewMessage handler. -/
structure InboundMsg where
  out : Bool := false
  text : String
  chatId : String
deriving DecidableEq, Repr

/-- Result of running an inbound handler. -/
structure HandlerResult where
  agent : AgentState
  storage : Storage
  cooldowns : List (String × Nat)
  histories : List (String × List ChatMsg)
  replied : Bool
deriving Repr

/-- `UserBotAgent.setupAutoReply`'s event handler.  `now` is `Date.now()`
read at entry; `now2` is the `Date.now()` taken after the reply was sent
(stored into the cooldown map); `providerReply` is the completion
provider's answer when `replyMode = "ai"`; `sendOk` tells whether
`msg.reply` succeeds (on failure the exception aborts the handler after
the inbound tracking, leaving the cooldown unset). -/
def userbotAutoReplyHandler (cfg : AutoReplyCfg) (a : AgentState)
    (s : Storage) (cooldowns : List (String × Nat))
    (histories : List (String × List ChatMsg)) (msg : InboundMsg)
    (now now2 : Nat) (providerReply : String) (sendOk : Bool) :
    HandlerResult :=
  if msg.out then ⟨a, s, cooldowns, histories, false⟩
  else
    let text := msg.text
    let chatId := msg.chatId
    let key := a.record.id ++ ":" ++ chatId
    let cd := (cfg.cooldownSeconds.getD 5) * 1000
    let onCooldown : Bool :=
      match alistGet cooldowns key with
      | some last => decide ((now : Int) - (last : Int) < (cd : Int))
      | none => false
    if onCooldown then ⟨a, s, cooldowns, histories, false⟩
    else if !shouldAutoReply cfg text chatId then
      ⟨a, s, cooldowns, histories, false⟩
    else
      let (a1, s1) := trackMessageOp a s now .msgIn text (some chatId)
      let reply :=
        if cfg.replyMode = "ai" then providerReply
        else findTemplateReply cfg.templates text
      let histories1 :=
        if cfg.replyMode = "ai" then
          (aiReplyStep histories key text providerReply).1
        else histories
      if reply ≠ "" then
        if sendOk then
          let cooldowns1 := alistSet cooldowns key now2
          let (a2, s2) := trackMessageOp a1 s1 now2 .msgOut reply (some chatId)
          ⟨a2, s2, cooldowns1, histories1, true⟩
        else
          ⟨a1, s1, cooldowns, histories1, false⟩
      else ⟨a1, s1, cooldowns, histories1, false⟩

/-- `BotAgent.handleText`: tracks the inbound message FIRST, then checks
the auto-reply config and eligibility; no cooldown map is consulted.
`providerReply` is the completion provider's answer for `replyMode =
"ai"`. -/
def botHandleText (a : AgentState) (s : Storage)
    (histories : List (String × List ChatMsg)) (text chatId : String)
    (now : Nat) (providerReply : String) : HandlerResult :=
  let (a1, s1) := trackMessageOp a s now .msgIn text (some chatId)
  match getAutoReply a1.record.behaviors with
  | none => ⟨a1, s1, [], histories, false⟩
  | some cfg =>
    if !cfg.enabled || !shouldAutoReply cfg text chatId then
      ⟨a1, s1, [], histories, false⟩
    else
      let reply :=
        if cfg.replyMode = "ai" then providerReply
        else findTemplateReply cfg.templates text
      let histories1 :=
        if cfg.replyMode = "ai" then
          (aiReplyStep histories (a1.record.id ++ ":" ++ chatId) text
            providerReply).1
        else histories
      if reply ≠ "" then
        let (a2, s2) := trackMessageOp a1 s1 now .msgOut reply (some chatId)
        ⟨a2, s2, [], histories1, true⟩
      else ⟨a1, s1, [], histories1, false⟩

-- ── Lifecycle (BotAgent.ts / UserBotAgent.ts) ───────────────────────────────

/-- External conditions seen by `UserBotAgent.start`. -/
structure Transport where
  envOk : Bool
  connectErr : Option String := none
  authorized : Bool := true
  savedSession : Option String := none
deriving DecidableEq, Repr

/-- `UserBotAgent.start`.  Returns the agent, the storage and `.ok`/`.error`
mirroring the promise outcome.  The unauthorized branch sets status
`error` and RETURNS (no raise), keeping the connected client. -/
def userbotStart (a : AgentState) (s : Storage) (now : Nat)
    (tr : Transport) : AgentState × Storage × Except String Unit :=
  if a.record.status = .running then (a, s, .ok ())
  else
    let (a1, s1) := setStatusOp a s now .starting none
    if !tr.envOk then
      let msg := "Error: TG_API_ID / TG_API_HASH not configured"
      let (a2, s2) := setStatusOp a1 s1 now .error (some msg)
      (a2, s2, .error msg)
    else
      let a2 := { a1 with clientUp := true }
      match tr.connectErr with
      | some e =>
        let (a3, s3) := setStatusOp a2 s1 now .error (some e)
        (a3, s3, .error e)
      | none =>
        if !tr.authorized then
          let msg := "Not authorized — call telegram.agent.authStart then authSubmit"
          let (a3, s3) := setStatusOp a2 s1 now .error (some msg)
          (a3, s3, .ok ())
        else
          let saved := tr.savedSession.getD ""
          let (a3, s3) :=
            if saved ≠ "" && some saved ≠ a2.record.credentials.sessionString then
              ({ a2 with record := { a2.record with
                   credentials := { a2.record.credentials with
                     sessionString := some saved } } },
               s1.updateSession a2.record.id now saved)
            else (a2, s1)
          let (a4, s4) := setStatusOp a3 s3 now .running none
          (a4, s4, .ok ())

/-- `UserBotAgent.stop`: clear cron jobs, disconnect (client := null), set
status `stopped` unconditionally. -/
def userbotStop (a : AgentState) (s : Storage) (now : Nat) :
    AgentState × Storage :=
  setStatusOp { a with clientUp := false } s now .stopped none

/-- `BotAgent.start`.  The grammy `Bot` is constructed and behaviors
registered synchronously; `bot.start`'s `onStart` callback (which sets
`running`) fires asynchronously and is modelled by `botOnStart`. -/
def botStart (a : AgentState) (s : Storage) (now : Nat) :
    AgentState × Storage × Except String Unit :=
  if a.record.status = .running then (a, s, .ok ())
  else
    let (a1, s1) := setStatusOp a s now .starting none
    let a2 := { a1 with clientUp := true }
    (a2, s1, .ok ())

/-- The `onStart` callback passed to `bot.start` by `BotAgent.start`. -/
def botOnStart (a : AgentState) (s : Storage) (now : Nat) :
    AgentState × Storage :=
  setStatusOp a s now .running none

/-- `BotAgent.stop`. -/
def botStop (a : AgentState) (s : Storage) (now : Nat) :
    AgentState × Storage :=
  setStatusOp { a with clientUp := false } s now .stopped none

-- ── Tool dispatch ───────────────────────────────────────────────────────────

/-- A successfully dispatched tool invocation (result data is external). -/
inductive ToolOutcome
  | executed (tool : String)
deriving DecidableEq, Repr

/-- `UserBotAgent.callTool`: guards on `this.client` being non-null, then
dispatches on the tool name. -/
def userbotCallTool (a : AgentState) (tool : String) :
    Except String ToolOutcome :=
  if !a.clientUp then .error "Agent not running"
  else if tool = "sendMessage" ∨ tool = "getMessages" ∨ tool = "getMembers"
      ∨ tool = "joinChat" ∨ tool = "leaveChat" ∨ tool = "getMe" then
    .ok (.executed tool)
  else .error ("Unknown tool: " ++ tool)

/-- `BotAgent.callTool`: guards on `this.bot` being non-null; supports
sendMessage and getMe, rejects getMessages with an explicit message, and
everything else as an unknown tool. -/
def botCallTool (a : AgentState) (tool : String) :
    Except String ToolOutcome :=
  if !a.clientUp then .error "Agent not running"
  else if tool = "sendMessage" then .ok (.executed "sendMessage")
  else if tool = "getMe" then .ok (.executed "getMe")
  else if tool = "getMessages" then
    .error "Bot API does not support getMessages — use a userbot agent"
  else .error ("Unknown tool: " ++ tool)

-- ── Broadcast behavior ──────────────────────────────────────────────────────

/-- The `cfg.enabled = false` mutation of the broadcast `run` closures:
`cfg` is the object returned by `getBehavior`, i.e. the FIRST broadcast
entry of the in-memory behavior list, mutated in place. -/
def disableFirstBroadcast : List BehaviorConfig → List BehaviorConfig
  | [] => []
  | .broadcast c :: rest => .broadcast { c with enabled := false } :: rest
  | b :: rest => b :: disableFirstBroadcast rest

/-- Whether re-registering a behavior list triggers another immediate
(unscheduled) broadcast pass: `setupBroadcast` starts `run()` right away
iff the broadcast config is enabled, the client exists, and no cron
`schedule` is set. -/
def broadcastWouldRerun (bs : List BehaviorConfig) (clientUp : Bool) : Bool :=
  match getBroadcast bs with
  | some c => c.enabled && clientUp && c.schedule.isNone
  | none => false

/-- Result of one broadcast pass. -/
structure BroadcastResult where
  agent : AgentState
  storage : Storage
  delivered : List String
  wouldRerun : Bool
deriving Repr

/-- One loop step of `BotAgent.setupBroadcast`'s `run`: try to send; on
success track the outbound message; on failure only log. -/
def botBroadcastStep (msg : String) (now : Nat) (sendOk : String → Bool)
    (st : AgentState × Storage × List String) (t : String) :
    AgentState × Storage × List String :=
  if sendOk t then
    let (a1, s1) := trackMessageOp st.1 st.2.1 now .msgOut msg (some t)
    (a1, s1, st.2.2 ++ [t])
  else st

/-- `BotAgent.setupBroadcast`'s guard plus one full `run` pass.  After the
pass, `onlyOnce` flips the config's enabled flag and persists through
`updateBehaviors`; the reconciliation re-registers the (now disabled)
broadcast, so `wouldRerun` reports whether that re-registration would
start another immediate pass. -/
def botBroadcastRun (a : AgentState) (s : Storage) (now : Nat)
    (sendOk : String → Bool) : BroadcastResult :=
  match getBroadcast a.record.behaviors with
  | none => ⟨a, s, [], false⟩
  | some cfg =>
    if !cfg.enabled || !a.clientUp then ⟨a, s, [], false⟩
    else
      let (a1, s1, delivered) :=
        cfg.targets.foldl (botBroadcastStep cfg.message now sendOk) (a, s, [])
      if cfg.onlyOnce then
        let bs1 := disableFirstBroadcast a1.record.behaviors
        let (a2, s2, _) := updateBehaviorsOp a1 s1 now bs1 none
        ⟨a2, s2, delivered, broadcastWouldRerun a2.record.behaviors a2.clientUp⟩
      else ⟨a1, s1, delivered, false⟩

/-- One loop step of `UserBotAgent.setupBroadcast`'s `run`: on success the
outbound message is tracked AND an extra broadcast `message_out` event is
pushed. -/
def userbotBroadcastStep (agentId agentName msg : String) (now : Nat)
    (sendOk : String → Bool) (st : AgentState × Storage × List String)
    (t : String) : AgentState × Storage × List String :=
  if sendOk t then
    let (a1, s1) := trackMessageOp st.1 st.2.1 now .msgOut msg (some t)
    let s2 := s1.saveEvent
      { agentId := agentId, agentName := agentName, etype := .message_out,
        payload := .broadcastOut t, timestamp := now }
    (a1, s2, st.2.2 ++ [t])
  else st

/-- `UserBotAgent.setupBroadcast`'s guard plus one full `run` pass. -/
def userbotBroadcastRun (a : AgentState) (s : Storage) (now : Nat)
    (sendOk : String → Bool) : BroadcastResult :=
  match getBroadcast a.record.behaviors with
  | none => ⟨a, s, [], false⟩
  | some cfg =>
    if !cfg.enabled || !a.clientUp then ⟨a, s, [], false⟩
    else
      let (a1, s1, delivered) :=
        cfg.targets.foldl
          (userbotBroadcastStep a.record.id a.record.name cfg.message now sendOk)
          (a, s, [])
      if cfg.onlyOnce then
        let bs1 := disableFirstBroadcast a1.record.behaviors
        let (a2, s2, _) := updateBehaviorsOp a1 s1 now bs1 none
        ⟨a2, s2, delivered, broadcastWouldRerun a2.record.behaviors a2.clientUp⟩
      else ⟨a1, s1, delivered, false⟩

-- ── Manager (agents/AgentManager.ts) ────────────────────────────────────────

/-- Which subclass `AgentManager.spawn` instantiated. -/
inductive AgentVariant
  | userbot
  | bot
deriving DecidableEq, Repr

/-- One pooled agent object. -/
structure PooledAgent where
  variant : AgentVariant
  state : AgentState
deriving DecidableEq, Repr

/-- The manager's pool (a JS Map keyed by agent id) plus the store. -/
structure ManagerState where
  pool : List (String × PooledAgent)
  storage : Storage
deriving Repr

/-- `AgentManager.spawn`'s variant dispatch:
`record.type === "userbot" ? new UserBotAgent(...) : new BotAgent(...)`. -/
def spawnVariant (rtype : String) : AgentVariant :=
  if rtype = "userbot" then .userbot else .bot

/-- `AgentManager.create`: builds the record (id from `randomUUID`,
supplied as the `uuid` oracle; status `stopped`; zeroed stats), persists
it, spawns and pools the agent, returns the record.  No validation of the
credentials is performed. -/
def managerCreate (m : ManagerState) (uuid : String) (now : Nat)
    (name : String) (credentials : AgentCredentials)
    (behaviors : List BehaviorConfig) : AgentRecord × ManagerState :=
  let record : AgentRecord :=
    { id := uuid, name := name, rtype := credentials.ctype,
      status := .stopped, credentials := credentials, behaviors := behaviors,
      createdAt := now, updatedAt := now, lastError := none,
      stats := ⟨0, 0, 0⟩ }
  let storage1 := m.storage.saveAgent record
  let agent : PooledAgent := ⟨spawnVariant credentials.ctype, ⟨record, false⟩⟩
  (record, ⟨alistSet m.pool uuid agent, storage1⟩)

/-- `AgentManager.get`: pooled snapshot, else the store. -/
def managerGet (m : ManagerState) (id : String) : Option AgentRecord :=
  match alistGet m.pool id with
  | some p => some p.state.record
  | none => m.storage.getAgent id

/-- `AgentManager.list`. -/
def managerList (m : ManagerState) : List AgentRecord :=
  m.pool.map (fun p => p.2.state.record)

/-- `AgentManager.authStart`'s dispatch: NotFound when unpooled, the
`instanceof UserBotAgent` check otherwise (`.ok` means the call proceeds
to the agent's transport-level auth flow). -/
def managerAuthStart (m : ManagerState) (id : String) : Except String Unit :=
  match alistGet m.pool id with
  | none => .error ("Agent not found: " ++ id)
  | some p =>
    if p.variant = .userbot then .ok ()
    else .error "Only userbot agents support auth"

/-- `AgentManager.setBehaviors`: delegates to the pooled agent's
`updateBehaviors`. -/
def managerSetBehaviors (m : ManagerState) (id : String) (now : Nat)
    (bs : List BehaviorConfig) (reconcileErr : Option String) :
    ManagerState × Except String Unit :=
  match alistGet m.pool id with
  | none => (m, .error ("Agent not found: " ++ id))
  | some p =>
    let (a1, s1, res) := updateBehaviorsOp p.state m.storage now bs reconcileErr
    (⟨alistSet m.pool id ⟨p.variant, a1⟩, s1⟩, res)

-- ── External reads (TelegramPlugin.ts) ──────────────────────────────────────

/-- `safeRecord` of TelegramPlugin.ts: mask token / sessionString in API
responses.  JS truthiness: an absent or empty field is left alone. -/
def safeRecord (r : AgentRecord) : AgentRecord :=
  let c := r.credentials
  let c1 :=
    match c.token with
    | some t => if t ≠ "" then { c with token := some (t.take 10 ++ "…") } else c
    | none => c
  let c2 :=
    match c1.sessionString with
    | some ss => if ss ≠ "" then { c1 with sessionString := some "[saved]" } else c1
    | none => c1
  { r with credentials := c2 }

/-- WS `telegram.agent.list` response body. -/
def wsAgentList (m : ManagerState) : List AgentRecord :=
  (managerList m).map safeRecord

/-- WS `telegram.agent.get` response body (`safeRecord(null)` is null). -/
def wsAgentGet (m : ManagerState) (id : String) : Option AgentRecord :=
  (managerGet m id).map safeRecord

/-- WS `telegram.agent.create` response body plus the new manager state. -/
def wsAgentCreate (m : ManagerState) (uuid : String) (now : Nat)
    (name : String) (credentials : AgentCredentials)
    (behaviors : List BehaviorConfig) : AgentRecord × ManagerState :=
  let (record, m1) := managerCreate m uuid now name credentials behaviors
  (safeRecord record, m1)

/-- HTTP `GET /telegram/agents` response data. -/
def httpListAgents (m : ManagerState) : List AgentRecord :=
  (managerList m).map safeRecord

/-- HTTP `GET /telegram/agents/:id` response data (`none` is the 404). -/
def httpGetAgent (m : ManagerState) (id : String) : Option AgentRecord :=
  match managerGet m id with
  | some r => some (safeRecord r)
  | none => none

/-- HTTP `POST /telegram/agents` response data plus the new state. -/
def httpCreateAgent (m : ManagerState) (uuid : String) (now : Nat)
    (name : String) (credentials : AgentCredentials)
    (behaviors : List BehaviorConfig) : AgentRecord × ManagerState :=
  let (record, m1) := managerCreate m uuid now name credentials behaviors
  (safeRecord record, m1)

-- ── Observation helpers ─────────────────────────────────────────────────────

/-- Number of `message_in` events recorded in the event log for an agent. -/
def countMsgIn (s : Storage) (aid : String) : Nat :=
  (s.events.filter
    (fun e => e.agentId == aid && e.etype == EventType.message_in)).length

/-- Iterated `aiReply` exchanges on one conversation key, processing the
(text, providerReply) pairs in order starting from the histories map `h`. -/
def runAiFrom (key : String) (h : List (String × List ChatMsg)) :
    List (String × String) → List (String × List ChatMsg)
  | [] => h
  | e :: es => runAiFrom key (aiReplyStep h key e.1 e.2).1 es

/-- Iterated `aiReply` exchanges starting from the empty histories map. -/
def runAi (key : String) (es : List (String × String)) :
    List (String × List ChatMsg) :=
  runAiFrom key [] es

/-- Full transcript of a list of exchanges: each exchange contributes its
user message followed by the assistant reply. -/
def transcript (es : List (String × String)) : List ChatMsg :=
  (es.map (fun p => [⟨"user", p.1⟩, ⟨"assistant", p.2⟩])).flatten

/-- `n` identical exchanges on key "k" (text "x", provider reply "y"),
starting from an empty histories map. -/
def iterAi : Nat → List (String × List ChatMsg)
  | 0 => []
  | n + 1 => (aiReplyStep (iterAi n) "k" "x" "y").1

/-- Relation between original credentials and their externally visible
masked form: the variant tag and phone number pass through, the token
keeps only its first 10 characters plus an ellipsis, and a stored
session-export string is replaced by the constant "[saved]". -/
def maskedCreds (orig out : AgentCredentials) : Prop :=
  out.ctype = orig.ctype ∧ out.phoneNumber = orig.phoneNumber ∧
  out.token = orig.token.map (fun t => if t = "" then t else t.take 10 ++ "…") ∧
  out.sessionString =
    orig.sessionString.map (fun ss => if ss = "" then ss else "[saved]")

-- ── Helper lemmas ───────────────────────────────────────────────────────────

/-- A row update that preserves ids commutes with row lookup. -/
theorem getAgent_updateAgentRow (s : Storage) (id : String)
    (f : AgentRecord → AgentRecord) (hf : ∀ r, (f r).id = r.id) :
    (s.updateAgentRow id f).getAgent id = (s.getAgent id).map f := by
  show ((s.agents.map fun r => if r.id = id then f r else r).find?
      fun r => r.id = id) = (s.agents.find? fun r => r.id = id).map f
  induction s.agents with
  | nil => rfl
  | cons a t ih =>
    by_cases h : a.id = id
    · simp [List.find?_cons, h, hf]
    · simp [List.find?_cons, h, ih]

theorem getAgent_saveEvent (s : Storage) (e : TelegramEvent) (id : String) :
    (s.saveEvent e).getAgent id = s.getAgent id := rfl

theorem events_updateAgentRow (s : Storage) (id : String)
    (f : AgentRecord → AgentRecord) :
    (s.updateAgentRow id f).events = s.events := rfl

/-- `Map.set` followed by `Map.get` at the same key. -/
theorem alistGet_alistSet {α : Type} (m : List (String × α)) (k : String)
    (v : α) : alistGet (alistSet m k v) k = some v := by
  unfold alistSet
  by_cases hmem : m.any (fun p => p.1 = k)
  · simp only [hmem, if_true]
    induction m with
    | nil => simp at hmem
    | cons a t ih =>
      by_cases h : a.1 = k
      · simp [alistGet, List.find?_cons, h]
      · simp only [List.any_cons, h, decide_eq_true_eq, false_or] at hmem
        simpa [alistGet, List.find?_cons, h] using ih hmem
  · simp only [hmem, if_false]
    induction m with
    | nil => simp [alistGet]
    | cons a t ih =>
      simp only [List.any_cons, Bool.or_eq_true, decide_eq_true_eq,
        not_or] at hmem
      simpa [alistGet, List.find?_cons, hmem.1] using ih (by
        simpa using hmem.2)

/-- Saving a record with a fresh id makes it retrievable. -/
theorem getAgent_saveAgent_fresh (s : Storage) (r : AgentRecord)
    (hfresh : ∀ x ∈ s.agents, x.id ≠ r.id) :
    (s.saveAgent r).getAgent r.id = some r := by
  unfold Storage.saveAgent
  have hany : s.agents.any (fun x => x.id = r.id) = false := by
    simp only [List.any_eq_false, decide_eq_true_eq]
    exact hfresh
  simp only [hany, Bool.false_eq_true, if_false]
  show ((s.agents ++ [r]).find? fun x => x.id = r.id) = some r
  have key : ∀ (l : List AgentRecord), (∀ x ∈ l, x.id ≠ r.id) →
      ((l ++ [r]).find? fun x => x.id = r.id) = some r := by
    intro l
    induction l with
    | nil => simp [List.find?_cons]
    | cons a t ih =>
      intro h
      have ha := h a (by simp)
      simp only [List.cons_append, List.find?_cons, ha, decide_False,
        cond_false]
      exact ih (fun x hx => h x (by simp [hx]))
  exact key s.agents hfresh

/-- `disableFirstBroadcast` turns the first broadcast entry off. -/
theorem getBroadcast_disableFirstBroadcast (bs : List BehaviorConfig)
    (cfg : BroadcastCfg) (h : getBroadcast bs = some cfg) :
    getBroadcast (disableFirstBroadcast bs) = some { cfg with enabled := false } := by
  induction bs with
  | nil => simp [getBroadcast] at h
  | cons b t ih =>
    cases b with
    | broadcast c =>
      simp only [getBroadcast, List.findSome?_cons] at h
      simp only [Option.some.injEq] at h
      subst h
      simp [disableFirstBroadcast, getBroadcast, List.findSome?_cons]
    | auto_reply c =>
      simp only [getBroadcast, List.findSome?_cons] at h ⊢
      simp only [disableFirstBroadcast, getBroadcast, List.findSome?_cons]
      exact ih h
    | monitor c =>
      simp only [getBroadcast, List.findSome?_cons] at h ⊢
      simp only [disableFirstBroadcast, getBroadcast, List.findSome?_cons]
      exact ih h
    | parser c =>
      simp only [getBroadcast, List.findSome?_cons] at h ⊢
      simp only [disableFirstBroadcast, getBroadcast, List.findSome?_cons]
      exact ih h

-- ── Claims ──────────────────────────────────────────────────────────────────

/-- C1: `updateBehaviors`/`setBehaviors` writes the submitted behavior list
to the persistent store before invoking the variant-specific
reconciliation, so after the call — whether the reconciliation succeeds or
raises — the persisted record's behavior list equals the submitted list
(and a reconciliation error still propagates to the caller). -/
theorem C1_setBehaviors_persists_submitted_list
    (a : AgentState) (s : Storage) (now : Nat) (bs : List BehaviorConfig)
    (reconcileErr : Option String)
    (hrow : (s.getAgent a.record.id).isSome)
    (m : ManagerState) (id : String) (p : PooledAgent)
    (hpool : alistGet m.pool id = some p) (hpid : p.state.record.id = id)
    (hrow2 : (m.storage.getAgent id).isSome) :
    (((updateBehaviorsOp a s now bs reconcileErr).2.1.getAgent
        a.record.id).isSome
      ∧ (∀ r', (updateBehaviorsOp a s now bs reconcileErr).2.1.getAgent
          a.record.id = some r' → r'.behaviors = bs)
      ∧ (∀ e, reconcileErr = some e →
          (updateBehaviorsOp a s now bs reconcileErr).2.2 = .error e))
    ∧ (∀ r', ((managerSetBehaviors m id now bs reconcileErr).1.storage.getAgent
        id) = some r' → r'.behaviors = bs)
    ∧ ((managerSetBehaviors m id now bs reconcileErr).1.storage.getAgent
        id).isSome := by
  have hup : ∀ (s' : Storage) (aid : String),
      (s'.updateBehaviors aid now bs).getAgent aid =
        (s'.getAgent aid).map
          (fun r => { r with behaviors := bs, updatedAt := now }) := by
    intro s' aid
    show ((s'.updateAgentRow aid _).getAgent aid) = _
    exact getAgent_updateAgentRow s' aid _ (fun r => rfl)
  refine ⟨⟨?_, ?_, ?_⟩, ?_, ?_⟩
  · cases hre : reconcileErr <;>
      simp [updateBehaviorsOp, hre, hup, Option.isSome_map', hrow]
  · intro r' hr'
    cases hre : reconcileErr <;> rw [hre] at hr' <;>
      simp only [updateBehaviorsOp, hup] at hr' <;>
      rcases Option.map_eq_some'.mp hr' with ⟨r0, _, hr0⟩ <;>
      simp [← hr0]
  · intro e he
    simp [updateBehaviorsOp, he]
  · intro r' hr'
    simp only [managerSetBehaviors, hpool] at hr'
    cases hre : reconcileErr <;> rw [hre] at hr' <;>
      simp only [updateBehaviorsOp, hpid, hup] at hr' <;>
      rcases Option.map_eq_some'.mp hr' with ⟨r0, _, hr0⟩ <;>
      simp [← hr0]
  · cases hre : reconcileErr <;>
      simp [managerSetBehaviors, hpool, updateBehaviorsOp, hre, hpid, hup,
        Option.isSome_map', hrow2]

/-- Witness for C1 at a concrete one-agent state with a failing
reconciliation. -/
theorem C1_setBehaviors_persists_submitted_list_witness :
    ∃ r', (updateBehaviorsOp
        ⟨⟨"a1", "n", "bot", .stopped, ⟨"bot", some "t", none, none⟩, [], 0, 0,
          none, ⟨0, 0, 0⟩⟩, false⟩
        ⟨[⟨"a1", "n", "bot", .stopped, ⟨"bot", some "t", none, none⟩, [], 0, 0,
          none, ⟨0, 0, 0⟩⟩], [], []⟩
        7 [] (some "boom")).2.1.getAgent "a1" = some r' ∧ r'.behaviors = [] := by
  have h := C1_setBehaviors_persists_submitted_list
    ⟨⟨"a1", "n", "bot", .stopped, ⟨"bot", some "t", none, none⟩, [], 0, 0,
      none, ⟨0, 0, 0⟩⟩, false⟩
    ⟨[⟨"a1", "n", "bot", .stopped, ⟨"bot", some "t", none, none⟩, [], 0, 0,
      none, ⟨0, 0, 0⟩⟩], [], []⟩
    7 [] (some "boom") (by decide)
    ⟨[("a1", ⟨.bot, ⟨⟨"a1", "n", "bot", .stopped,
      ⟨"bot", some "t", none, none⟩, [], 0, 0, none, ⟨0, 0, 0⟩⟩, false⟩⟩)],
      ⟨[⟨"a1", "n", "bot", .stopped, ⟨"bot", some "t", none, none⟩, [], 0, 0,
        none, ⟨0, 0, 0⟩⟩], [], []⟩⟩
    "a1" ⟨.bot, ⟨⟨"a1", "n", "bot", .stopped, ⟨"bot", some "t", none, none⟩,
      [], 0, 0, none, ⟨0, 0, 0⟩⟩, false⟩⟩ (by decide) (by decide) (by decide)
  rcases h with ⟨⟨hsome, hall, _⟩, _, _⟩
  rcases Option.isSome_iff_exists.mp hsome with ⟨r', hr'⟩
  exact ⟨r', hr', hall r' hr'⟩

/-- C7: `start()` on an agent whose status is `running` is a no-op for both
variants: the in-memory state, the persisted store and the event log are
returned unchanged and the call reports success. -/
theorem C7_start_on_running_is_noop (a : AgentState) (s : Storage)
    (now : Nat) (tr : Transport) (h : a.record.status = .running) :
    userbotStart a s now tr = (a, s, .ok ())
      ∧ botStart a s now = (a, s, .ok ()) := by
  constructor
  · simp [userbotStart, h]
  · simp [botStart, h]

/-- Witness for C7 on a concrete running agent. -/
theorem C7_start_on_running_is_noop_witness :
    userbotStart
        ⟨⟨"a2", "n", "userbot", .running, ⟨"userbot", none, some "+1", none⟩,
          [], 0, 0, none, ⟨1, 2, 3⟩⟩, true⟩
        ⟨[], [], []⟩ 9 ⟨true, none, true, none⟩ =
      (⟨⟨"a2", "n", "userbot", .running, ⟨"userbot", none, some "+1", none⟩,
          [], 0, 0, none, ⟨1, 2, 3⟩⟩, true⟩, ⟨[], [], []⟩, .ok ()) := by
  exact (C7_start_on_running_is_noop
    ⟨⟨"a2", "n", "userbot", .running, ⟨"userbot", none, some "+1", none⟩,
      [], 0, 0, none, ⟨1, 2, 3⟩⟩, true⟩
    ⟨[], [], []⟩ 9 ⟨true, none, true, none⟩ rfl).1

theorem getAgent_incrementStat (s : Storage) (id : String) (fld : StatField) :
    (s.incrementStat id fld).getAgent id = (s.getAgent id).map (fun r =>
      { r with stats :=
          match fld with
          | .sent => { r.stats with sent := r.stats.sent + 1 }
          | .received => { r.stats with received := r.stats.received + 1 }
          | .parsed => { r.stats with parsed := r.stats.parsed + 1 } }) :=
  getAgent_updateAgentRow s id _ (fun _ => rfl)

theorem countMsgIn_saveEvent (s : Storage) (e : TelegramEvent) (aid : String) :
    countMsgIn (s.saveEvent e) aid =
      countMsgIn s aid +
        (if e.agentId == aid && e.etype == EventType.message_in then 1 else 0) := by
  simp only [countMsgIn, Storage.saveEvent, List.filter_append,
    List.length_append]
  by_cases h : (e.agentId == aid && e.etype == EventType.message_in) = true
  · simp [List.filter, h]
  · simp [List.filter, h]

theorem countMsgIn_incrementStat (s : Storage) (id aid : String)
    (fld : StatField) : countMsgIn (s.incrementStat id fld) aid =
      countMsgIn s aid := rfl

/-- C10: on the token variant every inbound text message is tracked before
the auto-reply eligibility check: the persisted `received` counter is
incremented and exactly one new `message_in` event is logged, whatever the
agent's behavior list, eligibility or reply outcome. -/
theorem C10_bot_inbound_tracked_before_eligibility
    (a : AgentState) (s : Storage)
    (histories : List (String × List ChatMsg)) (text chatId : String)
    (now : Nat) (providerReply : String) (r : AgentRecord)
    (hrow : s.getAgent a.record.id = some r) :
    ((botHandleText a s histories text chatId now
          providerReply).storage.getAgent a.record.id).map
        (fun r' => r'.stats.received) = some (r.stats.received + 1)
      ∧ countMsgIn (botHandleText a s histories text chatId now
          providerReply).storage a.record.id = countMsgIn s a.record.id + 1 := by
  have hein : ∀ (e : TelegramEvent), e.agentId = a.record.id →
      e.etype = EventType.message_in →
      (e.agentId == a.record.id && e.etype == EventType.message_in) = true := by
    intro e h1 h2; simp [h1, h2]
  have heout : ∀ (e : TelegramEvent), e.etype = EventType.message_out →
      (e.agentId == a.record.id && e.etype == EventType.message_in) = false := by
    intro e h2; simp [h2]
  unfold botHandleText trackMessageOp
  cases hcfg : getAutoReply a.record.behaviors with
  | none =>
    simp only [hcfg]
    constructor
    · simp [getAgent_saveEvent, getAgent_incrementStat, hrow]
    · simp [countMsgIn_saveEvent, countMsgIn_incrementStat, hein]
  | some cfg =>
    simp only [hcfg]
    split
    · constructor
      · simp [getAgent_saveEvent, getAgent_incrementStat, hrow]
      · simp [countMsgIn_saveEvent, countMsgIn_incrementStat, hein]
    · split <;> split <;> constructor <;>
        simp [getAgent_saveEvent, getAgent_incrementStat, hrow,
          countMsgIn_saveEvent, countMsgIn_incrementStat, hein, heout]

/-- Witness for C10: a token agent with no behaviors at all still tracks
the inbound message. -/
theorem C10_bot_inbound_tracked_before_eligibility_witness :
    ((botHandleText
          ⟨⟨"b1", "n", "bot", .running, ⟨"bot", some "tok", none, none⟩, [],
            0, 0, none, ⟨0, 4, 0⟩⟩, true⟩
          ⟨[⟨"b1", "n", "bot", .running, ⟨"bot", some "tok", none, none⟩, [],
            0, 0, none, ⟨0, 4, 0⟩⟩], [], []⟩
          [] "hello" "c1" 3 "").storage.getAgent "b1").map
        (fun r' => r'.stats.received) = some (4 + 1)
      ∧ countMsgIn (botHandleText
          ⟨⟨"b1", "n", "bot", .running, ⟨"bot", some "tok", none, none⟩, [],
            0, 0, none, ⟨0, 4, 0⟩⟩, true⟩
          ⟨[⟨"b1", "n", "bot", .running, ⟨"bot", some "tok", none, none⟩, [],
            0, 0, none, ⟨0, 4, 0⟩⟩], [], []⟩
          [] "hello" "c1" 3 "").storage "b1" =
        countMsgIn ⟨[⟨"b1", "n", "bot", .running,
          ⟨"bot", some "tok", none, none⟩, [], 0, 0, none, ⟨0, 4, 0⟩⟩], [], []⟩
          "b1" + 1 :=
  C10_bot_inbound_tracked_before_eligibility
    ⟨⟨"b1", "n", "bot", .running, ⟨"bot", some "tok", none, none⟩, [],
      0, 0, none, ⟨0, 4, 0⟩⟩, true⟩
    ⟨[⟨"b1", "n", "bot", .running, ⟨"bot", some "tok", none, none⟩, [],
      0, 0, none, ⟨0, 4, 0⟩⟩], [], []⟩
    [] "hello" "c1" 3 ""
    ⟨"b1", "n", "bot", .running, ⟨"bot", some "tok", none, none⟩, [],
      0, 0, none, ⟨0, 4, 0⟩⟩ (by decide)

/-- C4 counterexample: the claim "callTool fails whenever status is not
`running`" is false.  A session-variant agent whose transport reports
`isUserAuthorized() = false` finishes `start()` in status `error` with a
connected client, and `callTool("getMe")` then executes the tool. -/
theorem C4_cex_error_status_still_executes_tool :
    ((userbotStart
        ⟨⟨"u1", "n", "userbot", .stopped, ⟨"userbot", none, some "+1", none⟩,
          [], 0, 0, none, ⟨0, 0, 0⟩⟩, false⟩
        ⟨[⟨"u1", "n", "userbot", .stopped, ⟨"userbot", none, some "+1", none⟩,
          [], 0, 0, none, ⟨0, 0, 0⟩⟩], [], []⟩
        5 ⟨true, none, false, none⟩).1.record.status ≠ AgentStatus.running)
      ∧ userbotCallTool
          (userbotStart
            ⟨⟨"u1", "n", "userbot", .stopped, ⟨"userbot", none, some "+1", none⟩,
              [], 0, 0, none, ⟨0, 0, 0⟩⟩, false⟩
            ⟨[⟨"u1", "n", "userbot", .stopped, ⟨"userbot", none, some "+1", none⟩,
              [], 0, 0, none, ⟨0, 0, 0⟩⟩], [], []⟩
            5 ⟨true, none, false, none⟩).1 "getMe" =
          .ok (.executed "getMe") := by
  constructor
  · decide
  · rfl

/-- C4 (amended): `callTool` fails with "Agent not running" exactly when the
transport client is absent; the client is absent initially and after
`stop()` (both variants), so a stopped agent's callTool always fails — but
the guard checks client presence, not status, so a `starting`- or
`error`-status agent holding a client executes the tool. -/
theorem C4_callTool_guards_on_client_presence
    (a : AgentState) (tool : String) (s : Storage) (now : Nat)
    (h : a.clientUp = false) :
    userbotCallTool a tool = .error "Agent not running"
      ∧ botCallTool a tool = .error "Agent not running"
      ∧ ((userbotStop a s now).1).clientUp = false
      ∧ ((botStop a s now).1).clientUp = false := by
  refine ⟨?_, ?_, rfl, rfl⟩
  · simp [userbotCallTool, h]
  · simp [botCallTool, h]

/-- Witness for C4's amended theorem on a concrete stopped agent. -/
theorem C4_callTool_guards_on_client_presence_witness :
    userbotCallTool
        ⟨⟨"u2", "n", "userbot", .stopped, ⟨"userbot", none, some "+1", none⟩,
          [], 0, 0, none, ⟨0, 0, 0⟩⟩, false⟩ "getMe" =
      .error "Agent not running" :=
  (C4_callTool_guards_on_client_presence
    ⟨⟨"u2", "n", "userbot", .stopped, ⟨"userbot", none, some "+1", none⟩,
      [], 0, 0, none, ⟨0, 0, 0⟩⟩, false⟩ "getMe" ⟨[], [], []⟩ 0 rfl).1

/-- C5 counterexample: on a token-variant agent, participant retrieval does
NOT fail with the explicit "not supported by this agent type" error — it
falls through to the generic unknown-tool error. -/
theorem C5_cex_getMembers_gets_unknown_tool_error :
    botCallTool
        ⟨⟨"b2", "n", "bot", .running, ⟨"bot", some "tok", none, none⟩, [],
          0, 0, none, ⟨0, 0, 0⟩⟩, true⟩ "getMembers" =
      .error "Unknown tool: getMembers" := by
  rfl

/-- C5 (amended): every session-only tool fails on the token variant, but
only `getMessages` fails with the explicit "use a userbot agent" message;
`getMembers`, `joinChat` and `leaveChat` fail with the generic
unknown-tool error.  `authStart` on a pooled token-variant agent fails
with "Only userbot agents support auth". -/
theorem C5_session_only_tools_fail_on_token_variant
    (a : AgentState) (m : ManagerState) (id : String) (p : PooledAgent)
    (hpool : alistGet m.pool id = some p) (hvar : p.variant = .bot) :
    botCallTool a "getMessages" =
        (if a.clientUp then
          .error "Bot API does not support getMessages — use a userbot agent"
        else .error "Agent not running")
      ∧ botCallTool a "getMembers" =
        (if a.clientUp then .error "Unknown tool: getMembers"
         else .error "Agent not running")
      ∧ botCallTool a "joinChat" =
        (if a.clientUp then .error "Unknown tool: joinChat"
         else .error "Agent not running")
      ∧ botCallTool a "leaveChat" =
        (if a.clientUp then .error "Unknown tool: leaveChat"
         else .error "Agent not running")
      ∧ managerAuthStart m id = .error "Only userbot agents support auth" := by
  refine ⟨?_, ?_, ?_, ?_, ?_⟩
  all_goals cases hc : a.clientUp <;>
    simp [botCallTool, managerAuthStart, hpool, hvar, hc]

/-- Witness for C5's amended theorem on a concrete pooled token agent. -/
theorem C5_session_only_tools_fail_on_token_variant_witness :
    botCallTool
        ⟨⟨"b3", "n", "bot", .running, ⟨"bot", some "tok", none, none⟩, [],
          0, 0, none, ⟨0, 0, 0⟩⟩, true⟩ "joinChat" =
      (if true then Except.error "Unknown tool: joinChat"
       else Except.error "Agent not running") :=
  ((C5_session_only_tools_fail_on_token_variant
    ⟨⟨"b3", "n", "bot", .running, ⟨"bot", some "tok", none, none⟩, [],
      0, 0, none, ⟨0, 0, 0⟩⟩, true⟩
    ⟨[("b3", ⟨.bot, ⟨⟨"b3", "n", "bot", .running,
        ⟨"bot", some "tok", none, none⟩, [], 0, 0, none, ⟨0, 0, 0⟩⟩,
        true⟩⟩)], ⟨[], [], []⟩⟩
    "b3" ⟨.bot, ⟨⟨"b3", "n", "bot", .running,
      ⟨"bot", some "tok", none, none⟩, [], 0, 0, none, ⟨0, 0, 0⟩⟩, true⟩⟩
    (by decide) rfl).2.2.1)

/-- C8 counterexample: `create` does NOT fail on a malformed credentials
variant.  With a credentials object whose tag is "bogus" (neither "bot"
nor "userbot") the call still returns a persisted record (status
`stopped`, zeroed stats) and pools a token-variant agent under the new
id. -/
theorem C8_cex_create_accepts_malformed_credentials :
    (managerCreate ⟨[], ⟨[], [], []⟩⟩ "id9" 3 "n"
        ⟨"bogus", none, none, none⟩ []).1.status = AgentStatus.stopped
      ∧ (managerCreate ⟨[], ⟨[], [], []⟩⟩ "id9" 3 "n"
          ⟨"bogus", none, none, none⟩ []).2.storage.getAgent "id9" =
        some (managerCreate ⟨[], ⟨[], [], []⟩⟩ "id9" 3 "n"
          ⟨"bogus", none, none, none⟩ []).1
      ∧ alistGet (managerCreate ⟨[], ⟨[], [], []⟩⟩ "id9" 3 "n"
          ⟨"bogus", none, none, none⟩ []).2.pool "id9" =
        some ⟨.bot, ⟨(managerCreate ⟨[], ⟨[], [], []⟩⟩ "id9" 3 "n"
          ⟨"bogus", none, none, none⟩ []).1, false⟩⟩ := by
  refine ⟨rfl, rfl, rfl⟩

/-- C8 (amended): `create(name, credentials, behaviors)` always succeeds:
it returns and persists a record with the fresh id, status `stopped` and
all-zero stats, and pools an agent under that id (a session-variant agent
exactly when the tag is "userbot", a token-variant agent for any other
tag).  No validation of the credentials is performed. -/
theorem C8_create_builds_stopped_record
    (m : ManagerState) (uuid : String) (now : Nat) (name : String)
    (credentials : AgentCredentials) (behaviors : List BehaviorConfig)
    (hfresh : ∀ x ∈ m.storage.agents, x.id ≠ uuid) :
    (managerCreate m uuid now name credentials behaviors).1 =
        ⟨uuid, name, credentials.ctype, .stopped, credentials, behaviors,
          now, now, none, ⟨0, 0, 0⟩⟩
      ∧ (managerCreate m uuid now name credentials behaviors).2.storage.getAgent
          uuid =
        some ⟨uuid, name, credentials.ctype, .stopped, credentials, behaviors,
          now, now, none, ⟨0, 0, 0⟩⟩
      ∧ alistGet (managerCreate m uuid now name credentials behaviors).2.pool
          uuid =
        some ⟨spawnVariant credentials.ctype,
          ⟨⟨uuid, name, credentials.ctype, .stopped, credentials, behaviors,
            now, now, none, ⟨0, 0, 0⟩⟩, false⟩⟩ := by
  refine ⟨rfl, ?_, ?_⟩
  · exact getAgent_saveAgent_fresh m.storage _ hfresh
  · exact alistGet_alistSet m.pool uuid _

/-- Witness for C8's amended theorem on a concrete session-variant
creation. -/
theorem C8_create_builds_stopped_record_witness :
    (managerCreate ⟨[], ⟨[], [], []⟩⟩ "id7" 4 "alice"
        ⟨"userbot", none, some "+1", none⟩ []).1 =
      ⟨"id7", "alice", "userbot", .stopped,
        ⟨"userbot", none, some "+1", none⟩, [], 4, 4, none, ⟨0, 0, 0⟩⟩ :=
  (C8_create_builds_stopped_record ⟨[], ⟨[], [], []⟩⟩ "id7" 4 "alice"
    ⟨"userbot", none, some "+1", none⟩ [] (by intro x hx; cases hx)).1

theorem safeRecord_masks (r : AgentRecord) :
    maskedCreds r.credentials (safeRecord r).credentials := by
  rcases r with ⟨id, name, rtype, status, ⟨ct, tok, ph, ss⟩, bs, ca, ua, le, st⟩
  unfold safeRecord maskedCreds
  cases tok <;> cases ss <;> simp <;> split_ifs <;> simp_all

/-- C9: every external read of an agent record masks the credentials: the
WebSocket list/get/create responses and the HTTP list/get/create routes
all return `safeRecord` images, in which a token keeps only its first 10
characters plus an ellipsis and a stored session-export string is replaced
by the constant "[saved]"; no such read returns the raw credentials. -/
theorem C9_external_reads_mask_credentials :
    (∀ r : AgentRecord, maskedCreds r.credentials (safeRecord r).credentials)
      ∧ (∀ (m : ManagerState) (r' : AgentRecord), r' ∈ wsAgentList m →
          ∃ r₀ ∈ managerList m, maskedCreds r₀.credentials r'.credentials)
      ∧ (∀ (m : ManagerState) (id : String) (r' : AgentRecord),
          wsAgentGet m id = some r' →
          ∃ r₀, managerGet m id = some r₀
            ∧ maskedCreds r₀.credentials r'.credentials)
      ∧ (∀ (m : ManagerState) (uuid : String) (now : Nat) (name : String)
          (creds : AgentCredentials) (behaviors : List BehaviorConfig),
          maskedCreds creds
            (wsAgentCreate m uuid now name creds behaviors).1.credentials)
      ∧ (∀ (m : ManagerState) (r' : AgentRecord), r' ∈ httpListAgents m →
          ∃ r₀ ∈ managerList m, maskedCreds r₀.credentials r'.credentials)
      ∧ (∀ (m : ManagerState) (id : String) (r' : AgentRecord),
          httpGetAgent m id = some r' →
          ∃ r₀, managerGet m id = some r₀
            ∧ maskedCreds r₀.credentials r'.credentials)
      ∧ (∀ (m : ManagerState) (uuid : String) (now : Nat) (name : String)
          (creds : AgentCredentials) (behaviors : List BehaviorConfig),
          maskedCreds creds
            (httpCreateAgent m uuid now name creds behaviors).1.credentials) := by
  have hmem : ∀ (m : ManagerState) (r' : AgentRecord),
      r' ∈ (managerList m).map safeRecord →
      ∃ r₀ ∈ managerList m, maskedCreds r₀.credentials r'.credentials := by
    intro m r' h
    rcases List.mem_map.mp h with ⟨r₀, hr₀, rfl⟩
    exact ⟨r₀, hr₀, safeRecord_masks r₀⟩
  have hget : ∀ (m : ManagerState) (id : String) (r' : AgentRecord),
      (managerGet m id).map safeRecord = some r' →
      ∃ r₀, managerGet m id = some r₀
        ∧ maskedCreds r₀.credentials r'.credentials := by
    intro m id r' h
    rcases Option.map_eq_some'.mp h with ⟨r₀, hr₀, rfl⟩
    exact ⟨r₀, hr₀, safeRecord_masks r₀⟩
  refine ⟨safeRecord_masks, hmem, hget, ?_, hmem, ?_, ?_⟩
  · intro m uuid now name creds behaviors
    exact safeRecord_masks
      ⟨uuid, name, creds.ctype, .stopped, creds, behaviors, now, now, none,
        ⟨0, 0, 0⟩⟩
  · intro m id r' h
    apply hget
    unfold httpGetAgent at h
    cases hg : managerGet m id
    · rw [hg] at h; simp at h
    · rw [hg] at h; exact h
  · intro m uuid now name creds behaviors
    exact safeRecord_masks
      ⟨uuid, name, creds.ctype, .stopped, creds, behaviors, now, now, none,
        ⟨0, 0, 0⟩⟩

/-- Witness for C9 on a concrete pooled agent holding a long token and a
session string: the get response reveals only the 10-char token prefix. -/
theorem C9_external_reads_mask_credentials_witness :
    ∃ r₀, managerGet
        ⟨[("a9", ⟨.bot, ⟨⟨"a9", "n", "bot", .running,
            ⟨"bot", some "supersecrettoken12345", none, some "SESSIONDATA"⟩,
            [], 0, 0, none, ⟨0, 0, 0⟩⟩, true⟩⟩)], ⟨[], [], []⟩⟩ "a9" =
        some r₀
      ∧ maskedCreds r₀.credentials
          (⟨"a9", "n", "bot", .running,
            ⟨"bot", some "supersecre…", none, some "[saved]"⟩,
            [], 0, 0, none, ⟨0, 0, 0⟩⟩ : AgentRecord).credentials :=
  C9_external_reads_mask_credentials.2.2.1
    ⟨[("a9", ⟨.bot, ⟨⟨"a9", "n", "bot", .running,
        ⟨"bot", some "supersecrettoken12345", none, some "SESSIONDATA"⟩,
        [], 0, 0, none, ⟨0, 0, 0⟩⟩, true⟩⟩)], ⟨[], [], []⟩⟩ "a9"
    ⟨"a9", "n", "bot", .running,
      ⟨"bot", some "supersecre…", none, some "[saved]"⟩,
      [], 0, 0, none, ⟨0, 0, 0⟩⟩ (by rfl)

theorem aiReplyStep_stored (h : List (String × List ChatMsg))
    (key t rep : String) :
    (alistGet (aiReplyStep h key t rep).1 key).getD [] =
      (let hist1 := (alistGet h key).getD [] ++ [⟨"user", t⟩]
       (if hist1.length > 20 then hist1.drop (hist1.length - 20) else hist1))
        ++ [⟨"assistant", rep⟩] := by
  simp [aiReplyStep, alistGet_alistSet]

theorem trim_length_le (l : List ChatMsg) :
    (if l.length > 20 then l.drop (l.length - 20) else l).length ≤ 20 := by
  split
  · simp only [List.length_drop]; omega
  · omega

theorem trim_suffix (l : List ChatMsg) :
    (if l.length > 20 then l.drop (l.length - 20) else l) <:+ l := by
  split
  · exact List.drop_suffix _ _
  · exact List.suffix_refl _

theorem suffix_append_same {α : Type} {l₁ l₂ : List α} (t : List α)
    (h : l₁ <:+ l₂) : l₁ ++ t <:+ l₂ ++ t := by
  obtain ⟨w, hw⟩ := h
  exact ⟨w, by rw [← hw, List.append_assoc]⟩

theorem runAiFrom_inv (key : String) :
    ∀ (es : List (String × String)) (h : List (String × List ChatMsg))
      (T : List ChatMsg),
      ((alistGet h key).getD []).length ≤ 21 →
      (alistGet h key).getD [] <:+ T →
      ((alistGet (runAiFrom key h es) key).getD []).length ≤ 21
        ∧ (alistGet (runAiFrom key h es) key).getD [] <:+
            (T ++ transcript es) := by
  intro es
  induction es with
  | nil =>
    intro h T hlen hsuf
    simpa [runAiFrom, transcript] using ⟨hlen, hsuf⟩
  | cons e es ih =>
    intro h T hlen hsuf
    have hstep := aiReplyStep_stored h key e.1 e.2
    have hlen2 : ((alistGet (aiReplyStep h key e.1 e.2).1 key).getD []).length
        ≤ 21 := by
      rw [hstep]
      have htrim := trim_length_le ((alistGet h key).getD [] ++ [⟨"user", e.1⟩])
      simp only [List.length_append, List.length_cons, List.length_nil]
        at htrim ⊢
      omega
    have hsuf2 : (alistGet (aiReplyStep h key e.1 e.2).1 key).getD [] <:+
        (T ++ [⟨"user", e.1⟩, ⟨"assistant", e.2⟩]) := by
      rw [hstep]
      have h1 : (let hist1 := (alistGet h key).getD [] ++ [⟨"user", e.1⟩]
          (if hist1.length > 20 then hist1.drop (hist1.length - 20) else hist1))
            ++ [(⟨"assistant", e.2⟩ : ChatMsg)] <:+
          ((alistGet h key).getD [] ++ [⟨"user", e.1⟩]) ++ [⟨"assistant", e.2⟩] :=
        suffix_append_same _ (trim_suffix _)
      have h2 : ((alistGet h key).getD [] ++ [(⟨"user", e.1⟩ : ChatMsg)])
            ++ [(⟨"assistant", e.2⟩ : ChatMsg)] <:+
          (T ++ [⟨"user", e.1⟩]) ++ [⟨"assistant", e.2⟩] :=
        suffix_append_same _ (suffix_append_same _ hsuf)
      have h3 := h1.trans h2
      simpa [List.append_assoc] using h3
    have := ih (aiReplyStep h key e.1 e.2).1
      (T ++ [⟨"user", e.1⟩, ⟨"assistant", e.2⟩]) hlen2 hsuf2
    rcases this with ⟨hl, hs⟩
    refine ⟨by simpa [runAiFrom] using hl, ?_⟩
    have : transcript (e :: es) =
        [⟨"user", e.1⟩, ⟨"assistant", e.2⟩] ++ transcript es := by
      simp [transcript]
    rw [this]
    simpa [runAiFrom, List.append_assoc] using hs

/-- C2 counterexample: after 11 `aiReply` exchanges on one conversation key
the STORED history holds 21 entries — the list is trimmed to 20 before the
assistant reply is appended, so the cap of 20 is exceeded. -/
theorem C2_cex_stored_history_reaches_21 :
    ((alistGet (iterAi 11) "k").getD []).length = 21
      ∧ ¬ ((alistGet (iterAi 11) "k").getD []).length ≤ 20 := by
  constructor
  · rfl
  · decide

/-- C2 (amended): after any number of exchanges the stored conversation
history never exceeds 21 entries (the list is trimmed to the last 20
entries after the user message is pushed, then the assistant reply is
appended), the list actually sent to the completion provider never
exceeds 20 entries, and the oldest entries are the ones dropped: the
stored history is always a suffix of the full transcript. -/
theorem C2_history_bounded_oldest_dropped :
    (∀ (key : String) (es : List (String × String)),
        ((alistGet (runAi key es) key).getD []).length ≤ 21
          ∧ (alistGet (runAi key es) key).getD [] <:+ transcript es)
      ∧ (∀ (h : List (String × List ChatMsg)) (key text reply : String),
          ((alistGet h key).getD []).length ≤ 21 →
          ((aiReplyStep h key text reply).2).length ≤ 20) := by
  constructor
  · intro key es
    have := runAiFrom_inv key es [] [] (by simp [alistGet]) (by simp [alistGet])
    simpa [runAi] using this
  · intro h key text reply hlen
    show (if ((alistGet h key).getD [] ++ [(⟨"user", text⟩ : ChatMsg)]).length
          > 20 then
        ((alistGet h key).getD [] ++ [(⟨"user", text⟩ : ChatMsg)]).drop
          (((alistGet h key).getD []
            ++ [(⟨"user", text⟩ : ChatMsg)]).length - 20)
      else (alistGet h key).getD []
        ++ [(⟨"user", text⟩ : ChatMsg)]).length ≤ 20
    exact trim_length_le _

/-- Witness for C2's amended theorem: a concrete exchange list and a
concrete provider-call bound. -/
theorem C2_history_bounded_oldest_dropped_witness :
    (((alistGet (runAi "k" [("hi", "hello")]) "k").getD []).length ≤ 21
        ∧ (alistGet (runAi "k" [("hi", "hello")]) "k").getD [] <:+
            transcript [("hi", "hello")])
      ∧ (((alistGet ([] : List (String × List ChatMsg)) "k").getD
            []).length ≤ 21
          ∧ ((aiReplyStep [] "k" "hi" "hello").2).length ≤ 20) := by
  refine ⟨C2_history_bounded_oldest_dropped.1 "k" [("hi", "hello")], ?_, ?_⟩
  · decide
  · exact C2_history_bounded_oldest_dropped.2 [] "k" "hi" "hello" (by decide)

theorem enabled_of_shouldAutoReply {cfg : AutoReplyCfg} {t c : String}
    (h : shouldAutoReply cfg t c = true) : cfg.enabled = true := by
  cases he : cfg.enabled
  · unfold shouldAutoReply at h
    simp [he] at h
  · rfl

/-- C3 counterexample: the cooldown does NOT apply to the token variant.
A token agent with an enabled auto_reply behavior with `cooldownSeconds=5`
replies to two eligible inbound messages arriving 1 second apart in the
same chat — two replies, not at most one, because `BotAgent.handleText`
consults no cooldown state. -/
theorem C3_cex_token_variant_has_no_cooldown :
    (botHandleText
        ⟨⟨"b5", "n", "bot", .running, ⟨"bot", some "tok", none, none⟩,
          [.auto_reply ⟨true, "template", none, none,
            some [⟨"hi", "hello!"⟩], none, some 5⟩],
          0, 0, none, ⟨0, 0, 0⟩⟩, true⟩
        ⟨[⟨"b5", "n", "bot", .running, ⟨"bot", some "tok", none, none⟩,
          [.auto_reply ⟨true, "template", none, none,
            some [⟨"hi", "hello!"⟩], none, some 5⟩],
          0, 0, none, ⟨0, 0, 0⟩⟩], [], []⟩
        [] "hi" "c" 0 "").replied = true
      ∧ (botHandleText
          (botHandleText
            ⟨⟨"b5", "n", "bot", .running, ⟨"bot", some "tok", none, none⟩,
              [.auto_reply ⟨true, "template", none, none,
                some [⟨"hi", "hello!"⟩], none, some 5⟩],
              0, 0, none, ⟨0, 0, 0⟩⟩, true⟩
            ⟨[⟨"b5", "n", "bot", .running, ⟨"bot", some "tok", none, none⟩,
              [.auto_reply ⟨true, "template", none, none,
                some [⟨"hi", "hello!"⟩], none, some 5⟩],
              0, 0, none, ⟨0, 0, 0⟩⟩], [], []⟩
            [] "hi" "c" 0 "").agent
          (botHandleText
            ⟨⟨"b5", "n", "bot", .running, ⟨"bot", some "tok", none, none⟩,
              [.auto_reply ⟨true, "template", none, none,
                some [⟨"hi", "hello!"⟩], none, some 5⟩],
              0, 0, none, ⟨0, 0, 0⟩⟩, true⟩
            ⟨[⟨"b5", "n", "bot", .running, ⟨"bot", some "tok", none, none⟩,
              [.auto_reply ⟨true, "template", none, none,
                some [⟨"hi", "hello!"⟩], none, some 5⟩],
              0, 0, none, ⟨0, 0, 0⟩⟩], [], []⟩
            [] "hi" "c" 0 "").storage
          [] "hi" "c" 1000 "").replied = true := by
  constructor
  · decide
  · decide

/-- C3 (amended): with `cooldownSeconds=5` the cooldown holds on the
SESSION variant only: an eligible message that triggers a reply stamps
the (agent, chat) cooldown key, a second eligible message in the same
chat within 5 s of that stamp produces no reply, and a third eligible
message at or after the 5 s mark produces another reply.  The token
variant consults no cooldown state: every eligible inbound message with a
nonempty reply is answered. -/
theorem C3_cooldown_applies_to_session_variant_only
    (cfg : AutoReplyCfg) (a : AgentState) (s : Storage)
    (cooldowns : List (String × Nat))
    (histories : List (String × List ChatMsg))
    (msg1 msg2 msg3 : InboundMsg) (t1 t1' t2 t3 : Nat)
    (pr1 pr2 pr3 : String) (r1 r2 r3 : HandlerResult)
    (hcd : cfg.cooldownSeconds = some 5)
    (h1out : msg1.out = false)
    (h1cd : alistGet cooldowns (a.record.id ++ ":" ++ msg1.chatId) = none)
    (h1el : shouldAutoReply cfg msg1.text msg1.chatId = true)
    (h1rep : (if cfg.replyMode = "ai" then pr1
        else findTemplateReply cfg.templates msg1.text) ≠ "")
    (hr1 : r1 = userbotAutoReplyHandler cfg a s cooldowns histories msg1
        t1 t1' pr1 true)
    (h2chat : msg2.chatId = msg1.chatId) (h2out : msg2.out = false)
    (h2win : (t2 : Int) - (t1' : Int) < 5000)
    (hr2 : r2 = userbotAutoReplyHandler cfg r1.agent r1.storage r1.cooldowns
        r1.histories msg2 t2 t2 pr2 true)
    (h3chat : msg3.chatId = msg1.chatId) (h3out : msg3.out = false)
    (h3win : ¬ ((t3 : Int) - (t1' : Int) < 5000))
    (h3el : shouldAutoReply cfg msg3.text msg3.chatId = true)
    (h3rep : (if cfg.replyMode = "ai" then pr3
        else findTemplateReply cfg.templates msg3.text) ≠ "")
    (hr3 : r3 = userbotAutoReplyHandler cfg r2.agent r2.storage r2.cooldowns
        r2.histories msg3 t3 t3 pr3 true) :
    (r1.replied = true ∧ r2.replied = false ∧ r3.replied = true)
      ∧ (∀ (b : AgentState) (sb : Storage)
          (hsb : List (String × List ChatMsg)) (text chatId : String)
          (n : Nat) (prb : String) (cfgb : AutoReplyCfg),
          getAutoReply b.record.behaviors = some cfgb →
          shouldAutoReply cfgb text chatId = true →
          (if cfgb.replyMode = "ai" then prb
            else findTemplateReply cfgb.templates text) ≠ "" →
          (botHandleText b sb hsb text chatId n prb).replied = true) := by
  have hrep1 : r1.replied = true ∧
      r1.cooldowns = alistSet cooldowns (a.record.id ++ ":" ++ msg1.chatId) t1'
      ∧ r1.agent = a := by
    subst hr1
    unfold userbotAutoReplyHandler
    simp [h1out, h1cd, h1el, h1rep, trackMessageOp]
  have hrep2 : r2.replied = false ∧ r2.cooldowns = r1.cooldowns
      ∧ r2.agent = r1.agent := by
    subst hr2
    unfold userbotAutoReplyHandler
    simp [h2out, hrep1.2.2, hrep1.2.1, h2chat, alistGet_alistSet, hcd,
      decide_eq_true_eq, h2win]
  have h3el' : shouldAutoReply cfg msg3.text msg1.chatId = true :=
    h3chat ▸ h3el
  have h3rep' : (if cfg.replyMode = "ai" then pr3
      else findTemplateReply cfg.templates msg3.text) ≠ "" := h3rep
  have hrep3 : r3.replied = true := by
    subst hr3
    unfold userbotAutoReplyHandler
    simp [h3out, hrep2.2.2, hrep2.2.1, hrep1.2.2, hrep1.2.1, h3chat,
      alistGet_alistSet, hcd, decide_eq_true_eq, h3win, h3el, h3el', h3rep,
      h3rep', trackMessageOp]
  refine ⟨⟨hrep1.1, hrep2.1, hrep3⟩, ?_⟩
  intro b sb hsb text chatId n prb cfgb hb hel hrep
  have hen : cfgb.enabled = true := enabled_of_shouldAutoReply hel
  unfold botHandleText
  simp [hb, hen, hel, hrep, trackMessageOp]

/-- Witness for C3's amended theorem: a concrete session agent, messages
at t=0, t=4000 and t=5000. -/
theorem C3_cooldown_applies_to_session_variant_only_witness :
    ((userbotAutoReplyHandler
        ⟨true, "template", none, none, some [⟨"hi", "hello!"⟩], none, some 5⟩
        ⟨⟨"u5", "n", "userbot", .running, ⟨"userbot", none, some "+1", none⟩,
          [], 0, 0, none, ⟨0, 0, 0⟩⟩, true⟩
        ⟨[], [], []⟩ [] [] ⟨false, "hi", "c"⟩ 0 0 "" true).replied = true)
      ∧ ((userbotAutoReplyHandler
          ⟨true, "template", none, none, some [⟨"hi", "hello!"⟩], none, some 5⟩
          (userbotAutoReplyHandler
            ⟨true, "template", none, none, some [⟨"hi", "hello!"⟩], none,
              some 5⟩
            ⟨⟨"u5", "n", "userbot", .running,
              ⟨"userbot", none, some "+1", none⟩,
              [], 0, 0, none, ⟨0, 0, 0⟩⟩, true⟩
            ⟨[], [], []⟩ [] [] ⟨false, "hi", "c"⟩ 0 0 "" true).agent
          (userbotAutoReplyHandler
            ⟨true, "template", none, none, some [⟨"hi", "hello!"⟩], none,
              some 5⟩
            ⟨⟨"u5", "n", "userbot", .running,
              ⟨"userbot", none, some "+1", none⟩,
              [], 0, 0, none, ⟨0, 0, 0⟩⟩, true⟩
            ⟨[], [], []⟩ [] [] ⟨false, "hi", "c"⟩ 0 0 "" true).storage
          (userbotAutoReplyHandler
            ⟨true, "template", none, none, some [⟨"hi", "hello!"⟩], none,
              some 5⟩
            ⟨⟨"u5", "n", "userbot", .running,
              ⟨"userbot", none, some "+1", none⟩,
              [], 0, 0, none, ⟨0, 0, 0⟩⟩, true⟩
            ⟨[], [], []⟩ [] [] ⟨false, "hi", "c"⟩ 0 0 "" true).cooldowns
          (userbotAutoReplyHandler
            ⟨true, "template", none, none, some [⟨"hi", "hello!"⟩], none,
              some 5⟩
            ⟨⟨"u5", "n", "userbot", .running,
              ⟨"userbot", none, some "+1", none⟩,
              [], 0, 0, none, ⟨0, 0, 0⟩⟩, true⟩
            ⟨[], [], []⟩ [] [] ⟨false, "hi", "c"⟩ 0 0 "" true).histories
          ⟨false, "hi", "c"⟩ 4000 4000 "" true).replied = false) := by
  have h := C3_cooldown_applies_to_session_variant_only
    ⟨true, "template", none, none, some [⟨"hi", "hello!"⟩], none, some 5⟩
    ⟨⟨"u5", "n", "userbot", .running, ⟨"userbot", none, some "+1", none⟩,
      [], 0, 0, none, ⟨0, 0, 0⟩⟩, true⟩
    ⟨[], [], []⟩ [] [] ⟨false, "hi", "c"⟩ ⟨false, "hi", "c"⟩
    ⟨false, "hi", "c"⟩ 0 0 4000 5000 "" "" ""
    (userbotAutoReplyHandler
      ⟨true, "template", none, none, some [⟨"hi", "hello!"⟩], none, some 5⟩
      ⟨⟨"u5", "n", "userbot", .running, ⟨"userbot", none, some "+1", none⟩,
        [], 0, 0, none, ⟨0, 0, 0⟩⟩, true⟩
      ⟨[], [], []⟩ [] [] ⟨false, "hi", "c"⟩ 0 0 "" true)
    _ _ rfl rfl rfl (by decide) (by decide) rfl rfl rfl (by decide) rfl
    rfl rfl (by decide) (by decide) (by decide) rfl
  exact ⟨h.1.1, h.1.2.1⟩

theorem behaviorWrites_saveEvent (s : Storage) (e : TelegramEvent) :
    (s.saveEvent e).behaviorWrites = s.behaviorWrites := rfl

theorem behaviorWrites_incrementStat (s : Storage) (id : String)
    (f : StatField) : (s.incrementStat id f).behaviorWrites =
      s.behaviorWrites := rfl

theorem behaviorWrites_updateBehaviors (s : Storage) (id : String)
    (now : Nat) (bs : List BehaviorConfig) :
    (s.updateBehaviors id now bs).behaviorWrites =
      s.behaviorWrites ++ [(id, bs)] := rfl

/-- C6: a broadcast pass with `onlyOnce=true` over targets `[A, B]` where
the send to B fails (for either variant): the failure does not stop the
pass — it completes, A receives exactly one send and B none
(`delivered = [A]`), the behavior list is persisted exactly once (one new
entry in the write log) with the broadcast's enabled flag turned off, and
the re-registration triggered by that persist does not start another
pass. -/
theorem C6_broadcast_onlyOnce_disables_despite_failure
    (a : AgentState) (s : Storage) (now : Nat) (A B : String)
    (sendOk : String → Bool) (cfg : BroadcastCfg)
    (hga : getBroadcast a.record.behaviors = some cfg)
    (hen : cfg.enabled = true) (honce : cfg.onlyOnce = true)
    (htargets : cfg.targets = [A, B]) (hclient : a.clientUp = true)
    (hA : sendOk A = true) (hB : sendOk B = false) :
    ((botBroadcastRun a s now sendOk).delivered = [A]
      ∧ (botBroadcastRun a s now sendOk).storage.behaviorWrites =
          s.behaviorWrites ++
            [(a.record.id, disableFirstBroadcast a.record.behaviors)]
      ∧ getBroadcast (disableFirstBroadcast a.record.behaviors) =
          some { cfg with enabled := false }
      ∧ (botBroadcastRun a s now sendOk).wouldRerun = false)
    ∧ ((userbotBroadcastRun a s now sendOk).delivered = [A]
      ∧ (userbotBroadcastRun a s now sendOk).storage.behaviorWrites =
          s.behaviorWrites ++
            [(a.record.id, disableFirstBroadcast a.record.behaviors)]
      ∧ (userbotBroadcastRun a s now sendOk).wouldRerun = false) := by
  have hdis := getBroadcast_disableFirstBroadcast a.record.behaviors cfg hga
  refine ⟨⟨?_, ?_, hdis, ?_⟩, ?_, ?_, ?_⟩
  · unfold botBroadcastRun
    rw [hga]
    simp [hen, hclient, htargets, honce, botBroadcastStep, hA, hB,
      trackMessageOp, updateBehaviorsOp]
  · unfold botBroadcastRun
    rw [hga]
    simp [hen, hclient, htargets, honce, botBroadcastStep, hA, hB,
      trackMessageOp, updateBehaviorsOp, behaviorWrites_updateBehaviors,
      behaviorWrites_saveEvent, behaviorWrites_incrementStat]
  · unfold botBroadcastRun
    rw [hga]
    simp [hen, hclient, htargets, honce, botBroadcastStep, hA, hB,
      trackMessageOp, updateBehaviorsOp, broadcastWouldRerun, hdis]
  · unfold userbotBroadcastRun
    rw [hga]
    simp [hen, hclient, htargets, honce, userbotBroadcastStep, hA, hB,
      trackMessageOp, updateBehaviorsOp]
  · unfold userbotBroadcastRun
    rw [hga]
    simp [hen, hclient, htargets, honce, userbotBroadcastStep, hA, hB,
      trackMessageOp, updateBehaviorsOp, behaviorWrites_updateBehaviors,
      behaviorWrites_saveEvent, behaviorWrites_incrementStat]
  · unfold userbotBroadcastRun
    rw [hga]
    simp [hen, hclient, htargets, honce, userbotBroadcastStep, hA, hB,
      trackMessageOp, updateBehaviorsOp, broadcastWouldRerun, hdis]

/-- Witness for C6 on a concrete one-shot broadcast to ["A", "B"] where
"B" fails. -/
theorem C6_broadcast_onlyOnce_disables_despite_failure_witness :
    (botBroadcastRun
        ⟨⟨"b6", "n", "bot", .running, ⟨"bot", some "tok", none, none⟩,
          [.broadcast ⟨true, ["A", "B"], "sale!", none, none, none, true⟩],
          0, 0, none, ⟨0, 0, 0⟩⟩, true⟩
        ⟨[⟨"b6", "n", "bot", .running, ⟨"bot", some "tok", none, none⟩,
          [.broadcast ⟨true, ["A", "B"], "sale!", none, none, none, true⟩],
          0, 0, none, ⟨0, 0, 0⟩⟩], [], []⟩
        2 (fun t => t = "A")).delivered = ["A"]
      ∧ (botBroadcastRun
          ⟨⟨"b6", "n", "bot", .running, ⟨"bot", some "tok", none, none⟩,
            [.broadcast ⟨true, ["A", "B"], "sale!", none, none, none, true⟩],
            0, 0, none, ⟨0, 0, 0⟩⟩, true⟩
          ⟨[⟨"b6", "n", "bot", .running, ⟨"bot", some "tok", none, none⟩,
            [.broadcast ⟨true, ["A", "B"], "sale!", none, none, none, true⟩],
            0, 0, none, ⟨0, 0, 0⟩⟩], [], []⟩
          2 (fun t => t = "A")).storage.behaviorWrites =
        [] ++ [("b6",
          disableFirstBroadcast
            [.broadcast ⟨true, ["A", "B"], "sale!", none, none, none,
              true⟩])] := by
  have h := C6_broadcast_onlyOnce_disables_despite_failure
    ⟨⟨"b6", "n", "bot", .running, ⟨"bot", some "tok", none, none⟩,
      [.broadcast ⟨true, ["A", "B"], "sale!", none, none, none, true⟩],
      0, 0, none, ⟨0, 0, 0⟩⟩, true⟩
    ⟨[⟨"b6", "n", "bot", .running, ⟨"bot", some "tok", none, none⟩,
      [.broadcast ⟨true, ["A", "B"], "sale!", none, none, none, true⟩],
      0, 0, none, ⟨0, 0, 0⟩⟩], [], []⟩
    2 "A" "B" (fun t => t = "A")
    ⟨true, ["A", "B"], "sale!", none, none, none, true⟩
    rfl rfl rfl rfl rfl (by decide) (by decide)
  exact ⟨h.1.1, h.1.2.1⟩

end OpenClaw
